import Mathlib

/-!
Verification development for the fa-journaliser archival tool.

The Python sources under `fa_journaliser/` are shallowly embedded below.
HTML parsing (BeautifulSoup) is abstracted: a `Page` value records, for each
CSS selector the code queries, whether the element was found and the text or
attributes the code reads from it.  Every derived function (`is_data_incomplete`,
`journal_deleted`, `check_errors`, `Journal.save`, `Database.add_entry`,
`Database.update_entry`, the `work_forwards` batch logic, the status-glyph
inference, and the comment extraction guards) is translated line by line from
the source.  Python exceptions that the code does not catch are modelled with
`Except Unit`; `.error ()` marks a raised, uncaught (fatal) exception.
-/

namespace FAJournaliser

/-- Whether a character list begins with another (Python `startswith`). -/
def listHasPre : List Char → List Char → Bool
  | _, [] => true
  | [], _ :: _ => false
  | c :: cs, d :: ds => c = d && listHasPre cs ds

/-- Whether a character list contains another as a contiguous run. -/
def listHasSub : List Char → List Char → Bool
  | [], n => n.isEmpty
  | c :: cs, n => listHasPre (c :: cs) n || listHasSub cs n

/-- Python `needle in haystack` substring test (`haystack` contains `needle`). -/
def strContains (haystack needle : String) : Bool :=
  listHasSub haystack.data needle.data

/-- Python `str.startswith`. -/
def pyStartsWith (s pre : String) : Bool :=
  listHasPre s.data pre.data

/-- Python slicing `s[n:]`. -/
def pyDrop (s : String) (n : Nat) : String :=
  ⟨s.data.drop n⟩

/-- Python indexing `s[0]` (guarded by an emptiness check at every use). -/
def pyFirst (s : String) : Char :=
  s.data.headD 'A'

/-- Python `str.removesuffix`. -/
def pyRemoveSuf (s suf : String) : String :=
  if listHasPre s.data.reverse suf.data.reverse then
    ⟨s.data.take (s.data.length - suf.data.length)⟩
  else s

/-- Python `str.removeprefix`. -/
def pyRemovePre (s pre : String) : String :=
  if listHasPre s.data pre.data then ⟨s.data.drop pre.data.length⟩ else s

/-- The whitespace characters stripped by Python `str.strip()` (the common
ones; exotic Unicode spaces do not occur in the tested literals). -/
def isPyWS (c : Char) : Bool :=
  c = ' ' || c = '\t' || c = '\n' || c = '\r'

/-- Python `str.strip()`. -/
def pyStrip (s : String) : String :=
  ⟨((s.data.dropWhile isPyWS).reverse.dropWhile isPyWS).reverse⟩

/-- Digits to a number, most significant first. -/
def digitsToNat (cs : List Char) : Nat :=
  cs.foldl (fun n c => n * 10 + (c.toNat - 48)) 0

/-- Python `int(s)`: surrounding whitespace, an optional sign, then a
nonempty digit run; anything else raises `ValueError` (`none`). -/
def pyToInt? (s : String) : Option Int :=
  let cs := ((s.data.dropWhile isPyWS).reverse.dropWhile isPyWS).reverse
  match cs with
  | '-' :: ds =>
    if ¬ ds.isEmpty && ds.all Char.isDigit then some (-(digitsToNat ds : Int))
    else none
  | '+' :: ds =>
    if ¬ ds.isEmpty && ds.all Char.isDigit then some (digitsToNat ds)
    else none
  | ds =>
    if ¬ ds.isEmpty && ds.all Char.isDigit then some (digitsToNat ds)
    else none

/-- Python `f"{x}"` for an `Optional[str]`: `None` renders as the text `None`. -/
def pyStrOpt : Option String → String
  | none => "None"
  | some s => s

/-! ## SQLite values and the `journals` table (`fa_journaliser/database.py`)

A stored SQLite value is an integer, a piece of text, or NULL.  Python `bool`
binds as integer 0/1, `datetime` binds as its ISO text, `None` binds as NULL.
-/

inductive SQLVal where
  | null : SQLVal
  | int : Int → SQLVal
  | text : String → SQLVal
deriving DecidableEq, Repr

/-- How Python `bool` is bound as an SQLite parameter. -/
def boolSV (b : Bool) : SQLVal := .int (if b then 1 else 0)

/-- How Python `Optional[str]` is bound as an SQLite parameter. -/
def optSV : Option String → SQLVal
  | none => .null
  | some s => .text s

/-- SQLite `=` comparison: NULL-propagating, values of different storage
classes (integer vs text) are never equal. -/
def sqlEq : SQLVal → SQLVal → SQLVal
  | .null, _ => .null
  | _, .null => .null
  | .int a, .int b => .int (if a = b then 1 else 0)
  | .text a, .text b => .int (if a = b then 1 else 0)
  | .int _, .text _ => .int 0
  | .text _, .int _ => .int 0

/-- Truthiness of an SQLite value in a boolean context: NULL is unknown,
numbers are compared with zero, text is cast to a numeric via its longest
integer-literal first segment (only the integer/NULL cases arise below). -/
def sqlTruth : SQLVal → Option Bool
  | .null => none
  | .int i => some (i ≠ 0)
  | .text s =>
    let digits := s.dropWhile (fun c => c = '-' ∨ c = '+' ∨ c = ' ')
    some (((digits.takeWhile Char.isDigit).toNat?.getD 0) ≠ 0)

/-- SQLite three-valued `AND`. -/
def sqlAnd (a b : SQLVal) : SQLVal :=
  match sqlTruth a, sqlTruth b with
  | some false, _ => .int 0
  | _, some false => .int 0
  | some true, some true => .int 1
  | _, _ => .null

/-- One row of the `journals` table. -/
structure DBRow where
  journal_id : Int
  is_deleted : SQLVal
  archive_datetime : SQLVal
  error : SQLVal
  login_used : SQLVal
  json : SQLVal
deriving DecidableEq, Repr

/-- The `journals` table; the `journal_id` primary key keeps rows unique. -/
abbrev DB := List DBRow

/-- `SELECT * FROM journals WHERE journal_id = ?`. -/
def findRow (db : DB) (jid : Int) : Option DBRow :=
  db.find? (fun r => r.journal_id = jid)

/-- `Database.add_entry`: INSERT with
`ON CONFLICT(journal_id) DO UPDATE SET is_deleted = ?, error = ?,
login_used = ?, json = ?` — note the conflict clause does not touch
`archive_datetime`. -/
def add_entry (jid : Int) (isDel : Bool) (arch : String)
    (err login json : Option String) : DB → DB
  | [] => [⟨jid, boolSV isDel, .text arch, optSV err, optSV login, optSV json⟩]
  | r :: rest =>
    if r.journal_id = jid then
      { r with is_deleted := boolSV isDel, error := optSV err,
               login_used := optSV login, json := optSV json } :: rest
    else
      r :: add_entry jid isDel arch err login json rest

/-- `Database.update_entry`: the statement it executes is
`UPDATE journals SET is_deleted = ? AND archive_datetime = ? AND error = ?
AND login_used = ? AND json = ? WHERE journal_id = ?`, which SQLite parses as
a single assignment of a three-valued AND expression to `is_deleted`.
A NULL result violates the column's NOT NULL constraint (`.error ()`,
an `IntegrityError`); an UPDATE matching no row is a silent no-op. -/
def update_entry (jid : Int) (isDel : Bool) (arch : String)
    (err login json : Option String) : DB → Except Unit DB
  | [] => .ok []
  | r :: rest =>
    if r.journal_id = jid then
      let v := sqlAnd (sqlAnd (sqlAnd (sqlAnd (boolSV isDel)
        (sqlEq r.archive_datetime (.text arch)))
        (sqlEq r.error (optSV err)))
        (sqlEq r.login_used (optSV login)))
        (sqlEq r.json (optSV json))
      if v = SQLVal.null then .error ()
      else .ok ({ r with is_deleted := v } :: rest)
    else do
      let rest' ← update_entry jid isDel arch err login json rest
      return r :: rest'

/-! ## Pages (`fa_journaliser/journal_info.py`)

A `Page` abstracts a parsed journal HTML document: for every element the
classifier-level code selects, the structure records whether the element was
found and the strings/attributes the code reads off it.  `Option` nesting
mirrors `select_one` returning `None` (outer) versus a missing
`.string`/attribute (inner). -/

/-- The `.redirect-message` element inside `section.notice-message`. -/
structure RedirectT where
  /-- `redirect.strings` (exact string items, not stripped). -/
  strings : List String
  /-- `redirect.stripped_strings`. -/
  strippedStrings : List String
  /-- `.c-usernameBlockSimple a`: element present?, and its `href` attribute. -/
  userLinkElem : Option (Option String)
deriving DecidableEq, Repr

/-- The `section.notice-message` element inside `#site-content`. -/
structure NoticeT where
  /-- `.redirect-message` sub-element. -/
  redirectMessage : Option RedirectT
  /-- `p.link-override` sub-element: its `stripped_strings`. -/
  linkOverride : Option (List String)
deriving DecidableEq, Repr

/-- The `#site-content` element. -/
structure SiteContentT where
  /-- `section.notice-message` sub-element. -/
  noticeMessage : Option NoticeT
deriving DecidableEq, Repr

/-- A fetched journal page, as the classifier-level code observes it. -/
structure Page where
  /-- The raw decoded content (`JournalInfo.raw_content`). -/
  rawContent : String
  /-- `soup.select_one("title")`: present?, and its `.string`. -/
  titleElem : Option (Option String)
  /-- `soup.select_one(".section-body")`: for a present element, the
  space-joined `stripped_strings` (`JournalInfo.error_message`). -/
  errorSectionBody : Option String
  /-- `soup.select_one("#site-content")`. -/
  siteContent : Option SiteContentT
  /-- whether `soup.select_one("form.logout-link")` found an element. -/
  logoutLink : Bool
  /-- `img.loggedin_user_avatar`: present?, with its `alt` attribute. -/
  loggedinAvatarAlt : Option String
  /-- result of rendering `json.dumps(info.to_json())` for this page:
  `none` when the extraction raises (missing expected markup). -/
  jsonRender : Option String
deriving DecidableEq, Repr

/-- The tagged classification outcome.  `check_errors` raises one exception
per variant; no exception means `ok`. -/
inductive Classification where
  | incomplete
  | notFound
  | systemError (msg : Option String)
  | accountPrivate
  | accountDisabled (username : String)
  | pendingDeletion (requestor : String)
  | ok
deriving DecidableEq, Repr

/-- `JournalInfo.page_title`: `select_one("title").string` — raises
(`AttributeError`) when the title element is missing. -/
def pageTitleE (p : Page) : Except Unit (Option String) :=
  match p.titleElem with
  | none => .error ()
  | some s => .ok s

/-- `JournalInfo.is_data_incomplete`: the closing marker is absent. -/
def is_data_incomplete (p : Page) : Bool :=
  ¬ strContains p.rawContent "</html>"

/-- `JournalInfo.is_system_error`: `page_title == "System Error"`. -/
def isSystemErrorE (p : Page) : Except Unit Bool := do
  return (← pageTitleE p) = some "System Error"

/-- The literal tested by `JournalInfo.journal_deleted`. -/
def notInDatabaseMsg : String :=
  "The journal you are trying to find is not in our database."

/-- `JournalInfo.journal_deleted`: on a system-error page, tests whether the
error message contains the not-in-database literal; raises (`TypeError`)
when `error_message` is `None` there. -/
def journalDeletedE (p : Page) : Except Unit Bool := do
  if (← isSystemErrorE p) then
    match p.errorSectionBody with
    | none => .error ()
    | some m => return strContains m notInDatabaseMsg
  else
    return false

/-- The literal tested by `JournalInfo.account_private`. -/
def privateMsg : String :=
  "The owner of this page has elected to make it available to registered users only."

/-- `JournalInfo.account_private`: total — every missing element returns
`False` before the next is dereferenced. -/
def account_private (p : Page) : Bool :=
  match p.siteContent with
  | none => false
  | some sc =>
    match sc.noticeMessage with
    | none => false
    | some nm =>
      match nm.redirectMessage with
      | none => false
      | some rd => rd.strings.contains privateMsg

/-- First phrasing tested by `JournalInfo.account_disabled_username`. -/
def disabledMsg1 : String :=
  "has voluntarily disabled access to their account and all of its contents."

/-- Second phrasing tested by `JournalInfo.account_disabled_username`. -/
def disabledMsg2 : String :=
  "Access has been disabled to the account and contents of user"

/-- The legacy pattern
`User "([^"]+)" has voluntarily disabled access to their account and all of
its contents.` applied with `re.match`: anchored at the start, the first
quoted segment is the capture, the trailing `.` matches any single
non-newline character, and the rest of the string is unconstrained. -/
def disabledRegexLit : List Char :=
  (" has voluntarily disabled access to their account and all of its contents").data

def disabledRegexMatch (s : String) : Option String :=
  let cs := s.data
  if listHasPre cs ("User \"").data then
    let rest := cs.drop 6
    let name := rest.takeWhile (fun c => ¬ c = '"')
    if name.isEmpty then none
    else
      match rest.drop name.length with
      | '"' :: after =>
        if listHasPre after disabledRegexLit then
          match after.drop disabledRegexLit.length with
          | c :: _ => if c = '\n' then none else some ⟨name⟩
          | [] => none
        else none
      | _ => none
  else none

/-- `JournalInfo.account_disabled_username`: raises (`AttributeError`) when
`#site-content` is missing, and (`TypeError`) when a matched notice has no
profile link to read the username from. -/
def accountDisabledUsernameE (p : Page) : Except Unit (Option String) := do
  match p.siteContent with
  | none => .error ()
  | some sc =>
    match sc.noticeMessage with
    | none => return none
    | some nm =>
      match nm.redirectMessage with
      | none => return none
      | some rd =>
        if rd.strippedStrings.contains disabledMsg1 ∨
            rd.strippedStrings.contains disabledMsg2 then
          match rd.userLinkElem with
          | some (some href) =>
            return some (pyRemovePre (pyRemoveSuf href "/") "/user/")
          | _ => .error ()
        else
          return rd.strippedStrings.findSome? disabledRegexMatch

/-- First phrasing tested by `JournalInfo.pending_deletion_by`. -/
def pendingOwnerMsg : String :=
  "The page you are trying to reach is currently pending deletion by a request from its owner."

/-- Second phrasing tested by `JournalInfo.pending_deletion_by`. -/
def pendingAdminMsg : String :=
  "The page you are trying to reach is currently pending deletion by a request from the administration."

/-- `JournalInfo.pending_deletion_by`: raises (`AttributeError`) when
`#site-content` is missing. -/
def pendingDeletionByE (p : Page) : Except Unit (Option String) := do
  match p.siteContent with
  | none => .error ()
  | some sc =>
    match sc.noticeMessage with
    | none => return none
    | some nm =>
      match nm.linkOverride with
      | none => return none
      | some strs =>
        if strs.contains pendingOwnerMsg then return some "its owner"
        else if strs.contains pendingAdminMsg then return some "the administration"
        else return none

/-- `JournalInfo.login_user`: `None` when no logout form is present; raises
(`AttributeError`) when the logged-in avatar is missing despite it. -/
def loginUserE (p : Page) : Except Unit (Option String) :=
  if ¬ p.logoutLink then .ok none
  else
    match p.loggedinAvatarAlt with
    | none => .error ()
    | some alt => .ok (some alt)

/-- `JournalInfo.check_errors` as a classification: each `raise` in the
Python body becomes the corresponding variant, falling through to `ok`.
`.error ()` is an exception outside the six-member taxonomy (a fatal,
unclassified parse failure). -/
def checkErrorsE (p : Page) : Except Unit Classification := do
  if is_data_incomplete p then return .incomplete
  if (← journalDeletedE p) then return .notFound
  if (← isSystemErrorE p) then return .systemError p.errorSectionBody
  if account_private p then return .accountPrivate
  match (← accountDisabledUsernameE p) with
  | some u => if u ≠ "" then return .accountDisabled u
  | none => pure ()
  match (← pendingDeletionByE p) with
  | some r => if r ≠ "" then return .pendingDeletion r
  | none => pure ()
  return .ok

/-! ## Saving (`fa_journaliser/journal.py`) -/

/-- `BROKEN_JOURNALS`. -/
def BROKEN_JOURNALS : List Int := [799264]

/-- `BROKEN_JOURNAL_ERR`. -/
def BROKEN_JOURNAL_ERR : String := "System error: Internal server error."

/-- The non-key fields `Journal.save` computes and hands to the record store. -/
structure SaveFields where
  is_deleted : Bool
  error : Option String
  login_used : Option String
  json_data : Option String
deriving DecidableEq, Repr

/-- `Journal.save` up to the database call: runs `check_errors` and turns
each caught exception into the stored fields.  `DataIncomplete`,
`RegisteredUsersOnly`, a `FASystemError` off the allow-list, and any
unclassified parse failure reach the bare-`raise` handlers, so the save
raises (`.error ()`) and nothing is persisted. -/
def saveFields (jid : Int) (p : Page) : Except Unit SaveFields := do
  let login ← loginUserE p
  match ← checkErrorsE p with
  | .incomplete => .error ()
  | .notFound =>
    return ⟨true, some "Journal not found", login, none⟩
  | .accountDisabled u =>
    return ⟨true, some ("Account disabled: " ++ u), login, none⟩
  | .pendingDeletion r =>
    return ⟨true, some ("Pending deletion from " ++ r), login, none⟩
  | .systemError m =>
    if BROKEN_JOURNALS.contains jid &&
        strContains ("System error: " ++ pyStrOpt m) BROKEN_JOURNAL_ERR then
      return ⟨true, some BROKEN_JOURNAL_ERR, login, none⟩
    else .error ()
  | .accountPrivate => .error ()
  | .ok =>
    match p.jsonRender with
    | none => .error ()
    | some j => return ⟨false, none, login, some j⟩

/-- `Journal.save` with `just_update=False`: compute the fields and upsert
them through `Database.add_entry`. -/
def journal_save (db : DB) (jid : Int) (p : Page) (arch : String) :
    Except Unit DB := do
  let f ← saveFields jid p
  return add_entry jid f.is_deleted arch f.error f.login_used f.json_data db

/-! ## Downloading (`fa_journaliser/download.py`) -/

/-- `download_journal_with_backup_cookies`: `fetch b` is the page obtained
by `download_journal` with (`b = true`) or without (`b = false`) the backup
cookie set.  Returns the journal's final page and how many downloads were
made for this ID. -/
def download_journal_with_backup_cookies (fetch : Bool → Page) : Page × Nat :=
  let j1 := fetch false
  if account_private j1 then (fetch true, 2) else (j1, 1)

/-- `work_forwards` batch arithmetic (lines 205–209):
`batch_start = last_good_id + 1`, `batch_end = last_good_id + batch_size + 1`
clipped with `min(batch_end, max_id)`, then `range(batch_start, batch_end)`
(half-open). -/
def next_forward_batch (lastGoodId batchSize : Int) (maxId : Option Int) :
    List Int :=
  let batchStart := lastGoodId + 1
  let batchEnd :=
    match maxId with
    | none => lastGoodId + batchSize + 1
    | some m => min (lastGoodId + batchSize + 1) m
  (List.range (batchEnd - batchStart).toNat).map (fun k => batchStart + k)

/-- What one `work_forwards` loop iteration decides about a fetched batch. -/
structure StepResult where
  /-- IDs handed to `save_many` (persisted). -/
  savedIds : List Int
  /-- IDs handed to `delete_many` (artifacts removed, never persisted). -/
  deletedIds : List Int
  /-- the worker's `last_good_id` after the iteration. -/
  newLastGoodId : Int
  /-- whether the empty-batch backoff branch was taken. -/
  emptyBatch : Bool
deriving DecidableEq, Repr

/-- The `journal_deleted` flag of every page in a batch, in order; raises if
any page's flag evaluation raises. -/
def batchFlags : List (Int × Page) → Except Unit (List (Int × Bool))
  | [] => .ok []
  | ip :: rest => do
    let d ← journalDeletedE ip.2
    let tail ← batchFlags rest
    return (ip.1, d) :: tail

/-- Python `max` over a nonempty list. -/
def listMaxD (l : List Int) (dflt : Int) : Int :=
  match l with
  | [] => dflt
  | x :: xs => xs.foldl max x

/-- One `work_forwards` iteration on a fetched batch (lines 217–243):
filter out journals whose `journal_deleted` flag is set; if none remain,
delete everything and keep `last_good_id`; otherwise advance to the maximum
remaining ID and split the whole batch into the saved (`id ≤ frontier`) and
deleted (`id > frontier`) parts. -/
def work_forwards_step (lastGoodId : Int) (batch : List (Int × Page)) :
    Except Unit StepResult := do
  let flags ← batchFlags batch
  let goodIds := (flags.filter (fun x => ¬ x.2)).map (fun x => x.1)
  if goodIds.isEmpty then
    return ⟨[], batch.map (fun ip => ip.1), lastGoodId, true⟩
  else
    let frontier := listMaxD goodIds 0
    let ids := batch.map (fun ip => ip.1)
    return ⟨ids.filter (fun i => i ≤ frontier),
            ids.filter (fun i => ¬ i ≤ frontier), frontier, false⟩

/-! ## Author status glyph (`journal_info.py` lines 35–48 and 542–570) -/

/-- `display_name_to_username`: lowercase (ASCII, as both Python and the
tested names use) and strip underscores. -/
def display_name_to_username (name : String) : String :=
  ⟨(name.data.map Char.toLower).filter (fun c => ¬ c = '_')⟩

/-- `prefix_to_meaning`: the fixed dictionary lookup.  The outer `Option` is
lookup success (`none` models the `KeyError` raised on any other key); the
key `None` maps to `None`. -/
def glyphMeaning : Option String → Option (Option String)
  | none => some none
  | some s =>
    if s = "" then some (some "")
    else if s = "∞" then some (some "Deceased")
    else if s = "!" then some (some "Suspended")
    else if s = "~" then some (some "Member")
    else if s = "-" then some (some "Banned")
    else if s = "@" then some (some "Staff")
    else none

/-- `JournalInfo.author_status_prefix`, fallback branch (lines 551–570),
taken when no `.c-usernameBlock__userName` markup element exists: infer the
status glyph from the raw display name and the canonical username.
`.error ()` models the raised `ValueError` (and the `IndexError` on an empty
display name). -/
def statusGlyphInfer (displayName username : String) : Except Unit String :=
  if displayName = "" then .error ()
  else
    let c := pyFirst displayName
    if c = '∞' ∨ c = '!' then .ok (String.singleton c)
    else
      let potentialUsername := display_name_to_username displayName
      if username = potentialUsername then .ok ""
      else if (c = '~' ∨ c = '-') ∧
          pyStartsWith username (pyDrop potentialUsername 1) = true then
        .ok (String.singleton c)
      else .error ()

/-! ## Comments (`journal_info.py`, class `CommentInfo`)

A `CommentElem` abstracts one `.comment_container` element the same way
`Page` abstracts a journal page. -/

/-- A parsed badge icon (`BadgeInfo`). -/
structure Badge where
  position : String
  title : String
  classType : String
  imageUrl : String
deriving DecidableEq, Repr

/-- The `comment-container.deleted-comment-container` element. -/
structure DeletedC where
  /-- `comment-user-text`: present?, and its `.string`. -/
  userText : Option (Option String)
  /-- `span.block__deleted_content` inside it: present?, and its `.string`. -/
  spanContent : Option (Option String)
deriving DecidableEq, Repr

/-- One comment element, as `CommentInfo`'s accessors observe it. -/
structure CommentElem where
  /-- `a.comment_anchor`: present?, with its `id` attribute. -/
  commentAnchorId : Option (Option String)
  /-- the `href` of the `a.comment-parent` link recovered from the
  commented-out fragment in `comment-anchor`; `none` when the anchor, the
  HTML comment, or the link is absent. -/
  parentHref : Option String
  /-- the deleted-comment container, when the comment is deleted. -/
  deletedContainer : Option DeletedC
  /-- `img.comment_useravatar`: present?, with its `src` and `alt`. -/
  avatarSrcAlt : Option (String × String)
  /-- the comment author display name, already stripped (`none` = absent). -/
  displayNameStr : Option String
  /-- the joined status symbol under `.c-usernameBlock__userName`
  (`none` = that block is absent). -/
  statusSymbolStr : Option String
  /-- `comment-username`: present?, with the badges parsed from it. -/
  usernameElemBadges : Option (List Badge)
  /-- the comment author's title string (`none` = absent). -/
  titleStr : Option String
  /-- `comment-date span.popup_date`: present?, with its `.string` and
  `title` attribute. -/
  dateElem : Option (String × Option String)
  /-- the comment body fragment. -/
  bodyHtml : Option String
  /-- whether `span.comment_op_marker` is present. -/
  opMarker : Bool
deriving DecidableEq, Repr

/-- The structured comment author block (`CommentAuthorInfo`). -/
structure CommentAuthor where
  display_name : Option String
  username : Option String
  avatar_url : Option String
  statusSymbol : Option String
  statusSymbolMeaning : Option (Option String)
  badges : List Badge
  user_title : Option String
deriving DecidableEq, Repr

/-- `CommentInfo.comment_id`: the anchor's `id` attribute must carry the
literal `cid:` head followed by an integer; anything else raises. -/
def comment_id (c : CommentElem) : Except Unit Int :=
  match c.commentAnchorId with
  | some (some idAttr) =>
    if pyStartsWith idAttr "cid:" then
      match pyToInt? (pyDrop idAttr 4) with
      | some n => .ok n
      | none => .error ()
    else .error ()
  | _ => .error ()

/-- `CommentInfo.parent_id`: absent layers yield `None`; a recovered link
must carry the literal `#cid:` head followed by an integer. -/
def parent_id (c : CommentElem) : Except Unit (Option Int) :=
  match c.parentHref with
  | none => .ok none
  | some href =>
    if pyStartsWith href "#cid:" then
      match pyToInt? (pyDrop href 5) with
      | some n => .ok (some n)
      | none => .error ()
    else .error ()

/-- `CommentInfo.deletion_message`: `None` when the deleted-comment
container is absent; otherwise the nested span's text when present, else the
`comment-user-text` text.  Missing inner elements/strings raise. -/
def deletion_message (c : CommentElem) : Except Unit (Option String) :=
  match c.deletedContainer with
  | none => .ok none
  | some d =>
    match d.userText with
    | none => .error ()
    | some ut =>
      match d.spanContent with
      | some (some s) => .ok (some (pyStrip s))
      | some none => .error ()
      | none =>
        match ut with
        | some s => .ok (some (pyStrip s))
        | none => .error ()

/-- `CommentInfo.author_username`: the avatar's `alt`, if any. -/
def comment_author_username (c : CommentElem) : Option String :=
  match c.avatarSrcAlt with
  | none => none
  | some sa => some sa.2

/-- `CommentInfo.author_avatar`: `"https"` glued onto the avatar `src`. -/
def comment_author_avatar (c : CommentElem) : Option String :=
  match c.avatarSrcAlt with
  | none => none
  | some sa => some ("https" ++ sa.1)

/-- `CommentInfo.author_badges`: badges of `comment-username` with the
`edited-icon` class filtered out; raises when the element is absent. -/
def comment_author_badges (c : CommentElem) : Except Unit (List Badge) :=
  match c.usernameElemBadges with
  | none => .error ()
  | some bs => .ok (bs.filter (fun b => b.classType ≠ "edited-icon"))

/-- `CommentInfo.author`: `None` for a deleted comment, otherwise the
assembled author block. -/
def comment_author (c : CommentElem) : Except Unit (Option CommentAuthor) := do
  if (← deletion_message c).isSome then
    return none
  let badges ← comment_author_badges c
  return some ⟨c.displayNameStr, comment_author_username c,
    comment_author_avatar c, c.statusSymbolStr,
    glyphMeaning c.statusSymbolStr, badges, c.titleStr⟩

/-- `CommentInfo.posted_at`: `None` for a deleted comment; otherwise prefer
the popup date's `title` attribute when the display text contains `ago`.
The timestamp is kept as its raw text (`dateutil` parsing is abstracted). -/
def comment_posted_at (c : CommentElem) : Except Unit (Option String) := do
  if (← deletion_message c).isSome then
    return none
  match c.dateElem with
  | none => .error ()
  | some (s, titleAttr) =>
    if strContains s "ago" then
      match titleAttr with
      | some t => return some t
      | none => .error ()
    else
      return some s

/-- `CommentInfo.edited`: `False` for a deleted comment; otherwise whether
the `comment-username` badges carry the `edited-icon` class. -/
def comment_edited (c : CommentElem) : Except Unit Bool := do
  if (← deletion_message c).isSome then
    return false
  match c.usernameElemBadges with
  | none => .error ()
  | some bs => return (bs.map (fun b => b.classType)).contains "edited-icon"

/-! ## Helper lemmas -/

/-- The continuation of `check_errors` after the account-disabled test. -/
def checkErrorsTail (p : Page) : Except Unit Classification :=
  match pendingDeletionByE p with
  | .error _ => .error ()
  | .ok (some r) => if r ≠ "" then .ok (.pendingDeletion r) else .ok .ok
  | .ok none => .ok .ok

/-- `checkErrorsE` rewritten as nested case analysis, for proofs. -/
def checkErrorsCases (p : Page) : Except Unit Classification :=
  if is_data_incomplete p then .ok .incomplete
  else
    match journalDeletedE p with
    | .error _ => .error ()
    | .ok true => .ok .notFound
    | .ok false =>
      match isSystemErrorE p with
      | .error _ => .error ()
      | .ok true => .ok (.systemError p.errorSectionBody)
      | .ok false =>
        if account_private p then .ok .accountPrivate
        else
          match accountDisabledUsernameE p with
          | .error _ => .error ()
          | .ok (some u) =>
            if u ≠ "" then .ok (.accountDisabled u) else checkErrorsTail p
          | .ok none => checkErrorsTail p

lemma checkErrorsE_eq_cases (p : Page) : checkErrorsE p = checkErrorsCases p := by
  unfold checkErrorsE checkErrorsCases checkErrorsTail
  simp only [bind, Except.bind, pure, Except.pure]
  by_cases hinc : is_data_incomplete p
  · simp [hinc]
  · simp only [hinc, Bool.false_eq_true, if_false]
    cases hjd : journalDeletedE p with
    | error e => rfl
    | ok b =>
      cases b
      · simp only [Bool.false_eq_true, if_false]
        cases hse : isSystemErrorE p with
        | error e => rfl
        | ok sb =>
          cases sb
          · simp only [Bool.false_eq_true, if_false]
            by_cases hap : account_private p
            · simp [hap]
            · simp only [hap, Bool.false_eq_true, if_false]
              cases hdu : accountDisabledUsernameE p with
              | error e => rfl
              | ok du =>
                cases du with
                | none =>
                  simp only []
                  cases hpd : pendingDeletionByE p with
                  | error e => rfl
                  | ok pd =>
                    cases pd with
                    | none => rfl
                    | some r => by_cases hr : r = "" <;> simp [hr]
                | some u =>
                  by_cases hu : u = ""
                  · simp only [hu, ne_eq, not_true_eq_false, if_false]
                    cases hpd : pendingDeletionByE p with
                    | error e => rfl
                    | ok pd =>
                      cases pd with
                      | none => rfl
                      | some r => by_cases hr : r = "" <;> simp [hr]
                  · simp [hu]
          · simp
      · simp

lemma le_foldl_max (xs : List Int) (a : Int) : a ≤ xs.foldl max a := by
  induction xs generalizing a with
  | nil => simp
  | cons y ys ih =>
    calc a ≤ max a y := le_max_left a y
    _ ≤ ys.foldl max (max a y) := ih (max a y)

lemma mem_le_foldl_max (xs : List Int) (a x : Int) :
    x ∈ xs → x ≤ xs.foldl max a := by
  induction xs generalizing a with
  | nil => intro hx; cases hx
  | cons y ys ih =>
    intro hx
    rcases List.mem_cons.mp hx with rfl | hmem
    · calc x ≤ max a x := le_max_right a x
      _ ≤ ys.foldl max (max a x) := le_foldl_max ys (max a x)
    · exact ih (max a y) hmem

lemma foldl_max_mem (xs : List Int) (a : Int) :
    xs.foldl max a = a ∨ xs.foldl max a ∈ xs := by
  induction xs generalizing a with
  | nil => simp
  | cons y ys ih =>
    rcases ih (max a y) with h | h
    · rcases max_cases a y with ⟨hm, _⟩ | ⟨hm, _⟩
      · left; rw [List.foldl_cons, h, hm]
      · right; rw [List.foldl_cons, h, hm]; exact List.mem_cons_self y ys
    · right; exact List.mem_cons_of_mem y h

lemma listMaxD_mem (l : List Int) (d : Int) (h : l ≠ []) :
    listMaxD l d ∈ l := by
  match l with
  | [] => exact absurd rfl h
  | x :: xs =>
    show xs.foldl max x ∈ x :: xs
    rcases foldl_max_mem xs x with h1 | h1
    · rw [h1]; exact List.mem_cons_self x xs
    · exact List.mem_cons_of_mem x h1

lemma le_listMaxD (l : List Int) (d x : Int) (hx : x ∈ l) :
    x ≤ listMaxD l d := by
  match l with
  | [] => cases hx
  | y :: ys =>
    unfold listMaxD
    rcases List.mem_cons.mp hx with rfl | hmem
    · exact le_foldl_max ys x
    · exact mem_le_foldl_max ys y x hmem

/-- The archive timestamp `add_entry` leaves in place: the existing row's on
conflict, the supplied one on insert. -/
def archAfterAdd (db : DB) (jid : Int) (arch : String) : SQLVal :=
  match findRow db jid with
  | some r => r.archive_datetime
  | none => .text arch

lemma findRow_add_entry (db : DB) (jid : Int) (isDel : Bool) (arch : String)
    (err login json : Option String) :
    findRow (add_entry jid isDel arch err login json db) jid =
      some ⟨jid, boolSV isDel, archAfterAdd db jid arch,
            optSV err, optSV login, optSV json⟩ := by
  induction db with
  | nil => simp [add_entry, findRow, archAfterAdd, List.find?]
  | cons r rest ih =>
    by_cases h : r.journal_id = jid
    · cases r
      simp_all [add_entry, findRow, archAfterAdd, List.find?]
    · simp [add_entry, findRow, archAfterAdd, List.find?, h] at ih ⊢
      exact ih

lemma batchFlags_ids (batch : List (Int × Page)) (flags : List (Int × Bool))
    (h : batchFlags batch = .ok flags) :
    flags.map Prod.fst = batch.map Prod.fst := by
  induction batch generalizing flags with
  | nil =>
    simp [batchFlags] at h
    simp [← h]
  | cons ip rest ih =>
    simp only [batchFlags, bind, Except.bind] at h
    cases hjd : journalDeletedE ip.2 with
    | error e => rw [hjd] at h; cases h
    | ok d =>
      rw [hjd] at h
      cases ht : batchFlags rest with
      | error e => rw [ht] at h; cases h
      | ok tail =>
        rw [ht] at h
        simp only [pure, Except.pure, Except.ok.injEq] at h
        subst h
        simp [ih tail ht]

lemma saveFields_invariant (jid : Int) (p : Page) (f : SaveFields)
    (h : saveFields jid p = .ok f) :
    (f.is_deleted = true ↔ f.error.isSome) ∧
      (f.error.isSome ↔ f.json_data = none) := by
  unfold saveFields at h
  simp only [bind, Except.bind] at h
  cases hl : loginUserE p with
  | error e => rw [hl] at h; cases h
  | ok login =>
    rw [hl] at h
    cases hc : checkErrorsE p with
    | error e => rw [hc] at h; cases h
    | ok cl =>
      rw [hc] at h
      cases cl with
      | incomplete => cases h
      | notFound =>
        simp only [pure, Except.pure, Except.ok.injEq] at h
        subst h; simp
      | accountDisabled u =>
        simp only [pure, Except.pure, Except.ok.injEq] at h
        subst h; simp
      | pendingDeletion r =>
        simp only [pure, Except.pure, Except.ok.injEq] at h
        subst h; simp
      | systemError m =>
        cases hb : (BROKEN_JOURNALS.contains jid &&
            strContains ("System error: " ++ pyStrOpt m) BROKEN_JOURNAL_ERR) with
        | true =>
          simp only [hb, if_true, pure, Except.pure, Except.ok.injEq] at h
          subst h; simp
        | false =>
          simp only [hb, Bool.false_eq_true, if_false] at h; cases h
      | accountPrivate => cases h
      | ok =>
        cases hj : p.jsonRender with
        | none => rw [hj] at h; cases h
        | some j =>
          rw [hj] at h
          simp only [pure, Except.pure, Except.ok.injEq] at h
          subst h; simp

lemma checkErrorsTail_ne (q : Page) :
    checkErrorsTail q ≠ .ok .notFound ∧ checkErrorsTail q ≠ .ok .accountPrivate := by
  unfold checkErrorsTail
  cases pendingDeletionByE q with
  | error e => simp
  | ok pd =>
    cases pd with
    | none => simp
    | some r => by_cases hr : r = "" <;> simp [hr]

lemma notFound_iff (q : Page) (h : is_data_incomplete q = false) :
    journalDeletedE q = .ok true ↔ checkErrorsE q = .ok .notFound := by
  rw [checkErrorsE_eq_cases]
  unfold checkErrorsCases
  constructor
  · intro hjd; simp [h, hjd]
  · intro hc
    simp only [h, Bool.false_eq_true, if_false] at hc
    cases hjd : journalDeletedE q with
    | error e => rw [hjd] at hc; cases hc
    | ok b =>
      cases b
      · rw [hjd] at hc
        exfalso
        cases hse : isSystemErrorE q with
        | error e => rw [hse] at hc; cases hc
        | ok sb =>
          cases sb
          · rw [hse] at hc
            by_cases hap : account_private q
            · simp [hap] at hc
            · simp only [hap, Bool.false_eq_true, if_false] at hc
              cases hdu : accountDisabledUsernameE q with
              | error e => rw [hdu] at hc; cases hc
              | ok du =>
                rw [hdu] at hc
                cases du with
                | none => exact (checkErrorsTail_ne q).1 hc
                | some u =>
                  by_cases hu : u = ""
                  · simp only [hu, ne_eq, not_true_eq_false, if_false] at hc
                    exact (checkErrorsTail_ne q).1 hc
                  · simp [hu] at hc
          · rw [hse] at hc; simp at hc
      · rfl

lemma accountPrivate_flag (q : Page)
    (h : checkErrorsE q = .ok .accountPrivate) : account_private q = true := by
  rw [checkErrorsE_eq_cases] at h
  unfold checkErrorsCases at h
  by_cases hinc : is_data_incomplete q
  · simp [hinc] at h
  · simp only [hinc, Bool.false_eq_true, if_false] at h
    cases hjd : journalDeletedE q with
    | error e => rw [hjd] at h; cases h
    | ok b =>
      cases b
      · rw [hjd] at h
        cases hse : isSystemErrorE q with
        | error e => rw [hse] at h; cases h
        | ok sb =>
          cases sb
          · rw [hse] at h
            by_cases hap : account_private q
            · exact hap
            · exfalso
              simp only [hap, Bool.false_eq_true, if_false] at h
              cases hdu : accountDisabledUsernameE q with
              | error e => rw [hdu] at h; cases h
              | ok du =>
                rw [hdu] at h
                cases du with
                | none => exact (checkErrorsTail_ne q).2 h
                | some u =>
                  by_cases hu : u = ""
                  · simp only [hu, ne_eq, not_true_eq_false, if_false] at h
                    exact (checkErrorsTail_ne q).2 h
                  · simp [hu] at h
          · rw [hse] at h; simp at h
      · rw [hjd] at h; simp at h

/-! ## Concrete pages and comments, used as witnesses and counterexamples -/

/-- A complete, healthy journal page. -/
def pageOk : Page :=
  { rawContent := "<html><body>journal</body></html>"
    titleElem := some (some "A journal -- Weasyl")
    errorSectionBody := none
    siteContent := some ⟨none⟩
    logoutLink := false
    loggedinAvatarAlt := none
    jsonRender := some "rendered payload" }

/-- A complete system-error page carrying the not-in-database message. -/
def pageNotFound : Page :=
  { rawContent := "<html><body>error</body></html>"
    titleElem := some (some "System Error")
    errorSectionBody := some notInDatabaseMsg
    siteContent := none
    logoutLink := false
    loggedinAvatarAlt := none
    jsonRender := none }

/-- A complete registered-users-only page. -/
def pagePrivate : Page :=
  { rawContent := "<html><body>notice</body></html>"
    titleElem := some (some "System Error Notice")
    errorSectionBody := none
    siteContent := some ⟨some ⟨some ⟨[privateMsg], [], none⟩, none⟩⟩
    logoutLink := false
    loggedinAvatarAlt := none
    jsonRender := none }

/-- A complete system-error page carrying the known broken-journal error. -/
def pageBroken : Page :=
  { rawContent := "<html><body>error</body></html>"
    titleElem := some (some "System Error")
    errorSectionBody := some "Internal server error."
    siteContent := none
    logoutLink := false
    loggedinAvatarAlt := none
    jsonRender := none }

/-- A truncated page (no closing marker) that nevertheless parses far enough
to carry the system-error title and the not-in-database message. -/
def pageIncNF : Page :=
  { rawContent := "<html><body>error..."
    titleElem := some (some "System Error")
    errorSectionBody := some notInDatabaseMsg
    siteContent := none
    logoutLink := false
    loggedinAvatarAlt := none
    jsonRender := none }

/-- A deleted comment element. -/
def deletedComment : CommentElem :=
  { commentAnchorId := some (some "cid:77")
    parentHref := some "#cid:70"
    deletedContainer := some ⟨some (some "Comment hidden by its owner"), none⟩
    avatarSrcAlt := none
    displayNameStr := none
    statusSymbolStr := none
    usernameElemBadges := some []
    titleStr := none
    dateElem := none
    bodyHtml := none
    opMarker := false }

/-! ## Claim theorems -/

/-- C2: classification tests the outcomes in the fixed order Incomplete,
NotFound, SystemError, AccountPrivate, AccountDisabled, PendingDeletion,
with the first matching test determining the single returned outcome, and
Ok only when none of the six match; truncated content is always Incomplete
regardless of anything else the content matches. -/
theorem c2_classification_order :
    (∀ p : Page, is_data_incomplete p = true →
      checkErrorsE p = .ok .incomplete) ∧
    (∀ p : Page, is_data_incomplete p = false →
      journalDeletedE p = .ok true → checkErrorsE p = .ok .notFound) ∧
    (∀ p : Page, is_data_incomplete p = false →
      journalDeletedE p = .ok false → isSystemErrorE p = .ok true →
      checkErrorsE p = .ok (.systemError p.errorSectionBody)) ∧
    (∀ p : Page, is_data_incomplete p = false →
      journalDeletedE p = .ok false → isSystemErrorE p = .ok false →
      account_private p = true → checkErrorsE p = .ok .accountPrivate) ∧
    (∀ (p : Page) (u : String), is_data_incomplete p = false →
      journalDeletedE p = .ok false → isSystemErrorE p = .ok false →
      account_private p = false → accountDisabledUsernameE p = .ok (some u) →
      u ≠ "" → checkErrorsE p = .ok (.accountDisabled u)) ∧
    (∀ (p : Page) (r : String), is_data_incomplete p = false →
      journalDeletedE p = .ok false → isSystemErrorE p = .ok false →
      account_private p = false → accountDisabledUsernameE p = .ok none →
      pendingDeletionByE p = .ok (some r) → r ≠ "" →
      checkErrorsE p = .ok (.pendingDeletion r)) ∧
    (∀ p : Page, checkErrorsE p = .ok .ok →
      is_data_incomplete p = false ∧ journalDeletedE p = .ok false ∧
      isSystemErrorE p = .ok false ∧ account_private p = false ∧
      (accountDisabledUsernameE p = .ok none ∨
        accountDisabledUsernameE p = .ok (some "")) ∧
      (pendingDeletionByE p = .ok none ∨
        pendingDeletionByE p = .ok (some ""))) := by
  refine ⟨?_, ?_, ?_, ?_, ?_, ?_, ?_⟩
  · intro p h
    rw [checkErrorsE_eq_cases]; unfold checkErrorsCases; simp [h]
  · intro p h hjd
    rw [checkErrorsE_eq_cases]; unfold checkErrorsCases; simp [h, hjd]
  · intro p h hjd hse
    rw [checkErrorsE_eq_cases]; unfold checkErrorsCases; simp [h, hjd, hse]
  · intro p h hjd hse hap
    rw [checkErrorsE_eq_cases]; unfold checkErrorsCases; simp [h, hjd, hse, hap]
  · intro p u h hjd hse hap hdu hu
    rw [checkErrorsE_eq_cases]; unfold checkErrorsCases
    simp [h, hjd, hse, hap, hdu, hu]
  · intro p r h hjd hse hap hdu hpd hr
    rw [checkErrorsE_eq_cases]; unfold checkErrorsCases checkErrorsTail
    simp [h, hjd, hse, hap, hdu, hpd, hr]
  · intro p h
    rw [checkErrorsE_eq_cases] at h; unfold checkErrorsCases at h
    by_cases hinc : is_data_incomplete p
    · simp [hinc] at h
    · simp only [hinc, Bool.false_eq_true, if_false] at h
      refine ⟨by simpa using hinc, ?_⟩
      cases hjd : journalDeletedE p with
      | error e => rw [hjd] at h; cases h
      | ok b =>
        cases b with
        | true => rw [hjd] at h; simp at h
        | false =>
        rw [hjd] at h
        refine ⟨rfl, ?_⟩
        cases hse : isSystemErrorE p with
        | error e => rw [hse] at h; cases h
        | ok sb =>
          cases sb with
          | true => rw [hse] at h; simp at h
          | false =>
          rw [hse] at h
          refine ⟨rfl, ?_⟩
          by_cases hap : account_private p
          · simp [hap] at h
          · simp only [hap, Bool.false_eq_true, if_false] at h
            refine ⟨by simpa using hap, ?_⟩
            cases hdu : accountDisabledUsernameE p with
            | error e => rw [hdu] at h; cases h
            | ok du =>
              rw [hdu] at h
              have hpd : checkErrorsTail p = .ok .ok →
                  pendingDeletionByE p = .ok none ∨
                    pendingDeletionByE p = .ok (some "") := by
                intro ht
                unfold checkErrorsTail at ht
                cases hq : pendingDeletionByE p with
                | error e => rw [hq] at ht; cases ht
                | ok pd =>
                  rw [hq] at ht
                  cases pd with
                  | none => exact Or.inl rfl
                  | some r =>
                    by_cases hr : r = ""
                    · subst hr; exact Or.inr rfl
                    · simp [hr] at ht
              cases du with
              | none => exact ⟨Or.inl rfl, hpd h⟩
              | some u =>
                by_cases hu : u = ""
                · subst hu
                  simp only [ne_eq, not_true_eq_false, if_false] at h
                  exact ⟨Or.inr rfl, hpd h⟩
                · simp [hu] at h

/-- C2 witness: the priority order evaluated at concrete pages — a
truncated not-in-database page is `Incomplete`, a complete one is
`NotFound`. -/
theorem c2_witness :
    checkErrorsE pageIncNF = .ok .incomplete ∧
    checkErrorsE pageNotFound = .ok .notFound := by
  have h := c2_classification_order
  exact ⟨h.1 pageIncNF (by rfl), h.2.1 pageNotFound (by rfl) (by rfl)⟩

lemma boolSV_eq_one (b : Bool) : boolSV b = .int 1 ↔ b = true := by
  cases b <;> simp [boolSV]

lemma optSV_ne_null (o : Option String) : optSV o ≠ .null ↔ o.isSome := by
  cases o <;> simp [optSV]

lemma optSV_eq_null (o : Option String) : optSV o = .null ↔ o = none := by
  cases o <;> simp [optSV]

/-- C4: every record written by a save satisfies the persisted-record
invariant — `is_deleted` is set iff the error field is non-NULL iff the
payload JSON is NULL: exactly one of the error path or the payload holds,
for every outcome that gets persisted. -/
theorem c4_persisted_invariant (db : DB) (jid : Int) (p : Page)
    (arch : String) (db' : DB) (h : journal_save db jid p arch = .ok db') :
    ∃ row : DBRow, findRow db' jid = some row ∧
      (row.is_deleted = SQLVal.int 1 ↔ row.error ≠ SQLVal.null) ∧
      (row.error ≠ SQLVal.null ↔ row.json = SQLVal.null) := by
  unfold journal_save at h
  simp only [bind, Except.bind] at h
  cases hf : saveFields jid p with
  | error e => rw [hf] at h; cases h
  | ok f =>
    rw [hf] at h
    simp only [pure, Except.pure, Except.ok.injEq] at h
    subst h
    have hinv := saveFields_invariant jid p f hf
    refine ⟨_, findRow_add_entry db jid f.is_deleted arch f.error
      f.login_used f.json_data, ?_, ?_⟩
    · rw [boolSV_eq_one, optSV_ne_null]
      exact hinv.1
    · rw [optSV_ne_null, optSV_eq_null]
      exact hinv.2

/-- C4 witness: a concrete not-found page saved into an empty store. -/
theorem c4_witness :
    ∃ row : DBRow,
      findRow [⟨1, .int 1, .text "D1", .text "Journal not found", .null,
        .null⟩] 1 = some row ∧
      (row.is_deleted = SQLVal.int 1 ↔ row.error ≠ SQLVal.null) ∧
      (row.error ≠ SQLVal.null ↔ row.json = SQLVal.null) :=
  c4_persisted_invariant [] 1 pageNotFound "D1" _ (by rfl)

/-- C5: for an ID on the broken-journal allow-list whose page classifies as
a system error carrying the known server error text, the save persists a
deleted record with the fixed literal message and a NULL payload, instead
of surfacing the fatal system error. -/
theorem c5_broken_journal (db : DB) (jid : Int) (p : Page) (arch : String)
    (m : String) (lg : Option String)
    (hjid : BROKEN_JOURNALS.contains jid = true)
    (hlg : loginUserE p = .ok lg)
    (hc : checkErrorsE p = .ok (.systemError (some m)))
    (hm : strContains ("System error: " ++ m) BROKEN_JOURNAL_ERR = true) :
    journal_save db jid p arch =
      .ok (add_entry jid true arch (some BROKEN_JOURNAL_ERR) lg none db) ∧
    ∃ row : DBRow,
      findRow (add_entry jid true arch (some BROKEN_JOURNAL_ERR) lg none db)
          jid = some row ∧
      row.is_deleted = SQLVal.int 1 ∧
      row.error = SQLVal.text BROKEN_JOURNAL_ERR ∧ row.json = SQLVal.null := by
  have hsf : saveFields jid p = .ok ⟨true, some BROKEN_JOURNAL_ERR, lg, none⟩ := by
    unfold saveFields
    simp only [bind, Except.bind, hlg, hc, pyStrOpt, hjid, hm, Bool.and_self,
      if_true, pure, Except.pure]
  constructor
  · unfold journal_save
    simp only [bind, Except.bind, hsf, pure, Except.pure]
  · refine ⟨_, findRow_add_entry db jid true arch (some BROKEN_JOURNAL_ERR)
      lg none, rfl, rfl, rfl⟩

/-- C5 witness: the known broken journal 799264 with its permanent server
error page, saved into an empty store. -/
theorem c5_witness :
    journal_save [] 799264 pageBroken "D2" =
      .ok (add_entry 799264 true "D2" (some BROKEN_JOURNAL_ERR) none none []) ∧
    ∃ row : DBRow,
      findRow (add_entry 799264 true "D2" (some BROKEN_JOURNAL_ERR) none none [])
          799264 = some row ∧
      row.is_deleted = SQLVal.int 1 ∧
      row.error = SQLVal.text BROKEN_JOURNAL_ERR ∧ row.json = SQLVal.null :=
  c5_broken_journal [] 799264 pageBroken "D2" "Internal server error." none
    (by rfl) (by rfl) (by rfl) (by rfl)

/-- C6: saving the same journal artifact twice in succession leaves the
stored row identical to its state after the first save — the classification
is deterministic and the upsert's conflict clause leaves the archive
timestamp of the existing row untouched. -/
theorem c6_idempotent (db : DB) (jid : Int) (p : Page) (a1 a2 : String)
    (db1 : DB) (h1 : journal_save db jid p a1 = .ok db1) :
    ∃ db2 : DB, journal_save db1 jid p a2 = .ok db2 ∧
      findRow db2 jid = findRow db1 jid := by
  unfold journal_save at h1 ⊢
  simp only [bind, Except.bind] at h1 ⊢
  cases hf : saveFields jid p with
  | error e => rw [hf] at h1; cases h1
  | ok f =>
    rw [hf] at h1
    simp only [pure, Except.pure, Except.ok.injEq] at h1
    subst h1
    refine ⟨_, rfl, ?_⟩
    rw [findRow_add_entry, findRow_add_entry]
    have harch : archAfterAdd
        (add_entry jid f.is_deleted a1 f.error f.login_used f.json_data db)
        jid a2 = archAfterAdd db jid a1 := by
      unfold archAfterAdd
      rw [findRow_add_entry]
      rfl
    rw [harch]

/-- C6 witness: a healthy page saved twice with different archive dates. -/
theorem c6_witness :
    ∃ db2 : DB,
      journal_save [⟨1, .int 0, .text "A", .null, .null,
        .text "rendered payload"⟩] 1 pageOk "B" = .ok db2 ∧
      findRow db2 1 =
        findRow [⟨1, .int 0, .text "A", .null, .null,
          .text "rendered payload"⟩] 1 :=
  c6_idempotent [] 1 pageOk "A" "B" _ (by rfl)

/-- The IDs of a flagged batch whose `journal_deleted` flag is clear. -/
def goodIdsOf (flags : List (Int × Bool)) : List Int :=
  (flags.filter (fun x => ¬ x.2)).map (fun x => x.1)

/-- C1 (amended): on a fetched batch, the forward worker keys its frontier
on the `journal_deleted` flag (equivalently, on a NotFound classification
whenever the content is complete): if every ID's flag is set, nothing is
persisted, every artifact is deleted and `last_good_id` is unchanged;
otherwise the frontier is the maximum ID with a clear flag, exactly the IDs
`≤` frontier are persisted (flagged ones included), exactly the IDs `>`
frontier are deleted and none of those is persisted, and `last_good_id`
becomes the frontier. -/
theorem c1_forward_frontier_amended :
    (∀ (last : Int) (batch : List (Int × Page)) (flags : List (Int × Bool)),
      batchFlags batch = .ok flags →
      (goodIdsOf flags = [] →
        work_forwards_step last batch =
          .ok ⟨[], batch.map (fun ip => ip.1), last, true⟩) ∧
      (goodIdsOf flags ≠ [] →
        work_forwards_step last batch =
          .ok ⟨(batch.map (fun ip => ip.1)).filter
                 (fun i => i ≤ listMaxD (goodIdsOf flags) 0),
               (batch.map (fun ip => ip.1)).filter
                 (fun i => ¬ i ≤ listMaxD (goodIdsOf flags) 0),
               listMaxD (goodIdsOf flags) 0, false⟩ ∧
        listMaxD (goodIdsOf flags) 0 ∈ goodIdsOf flags ∧
        (∀ g ∈ goodIdsOf flags, g ≤ listMaxD (goodIdsOf flags) 0) ∧
        (∀ i ∈ (batch.map (fun ip => ip.1)).filter
            (fun i => ¬ i ≤ listMaxD (goodIdsOf flags) 0),
          i ∉ (batch.map (fun ip => ip.1)).filter
            (fun i => i ≤ listMaxD (goodIdsOf flags) 0)))) ∧
    (∀ q : Page, is_data_incomplete q = false →
      (journalDeletedE q = .ok true ↔ checkErrorsE q = .ok .notFound)) := by
  constructor
  · intro last batch flags h
    constructor
    · intro hempty
      unfold work_forwards_step
      simp only [bind, Except.bind, h]
      have he : ((flags.filter (fun x => ¬ x.2)).map (fun x => x.1)).isEmpty
          = true := by
        have : (flags.filter (fun x => ¬ x.2)).map (fun x => x.1) = [] := hempty
        rw [this]; rfl
      simp only [he, eq_self_iff_true, if_true, pure, Except.pure]
    · intro hne
      have hne' : ((flags.filter (fun x => ¬ x.2)).map (fun x => x.1)).isEmpty
          = false := by
        cases hl : (flags.filter (fun x => ¬ x.2)).map (fun x => x.1) with
        | nil => exact absurd hl hne
        | cons a l => rfl
      refine ⟨?_, listMaxD_mem _ _ hne,
        fun g hg => le_listMaxD _ _ _ hg, ?_⟩
      · unfold work_forwards_step
        simp only [bind, Except.bind, h]
        simp only [hne', Bool.false_eq_true, if_false, pure, Except.pure,
          goodIdsOf]
      · intro i hi hmem
        have h1 := (List.mem_filter.mp hi).2
        have h2 := (List.mem_filter.mp hmem).2
        simp at h1 h2
        exact absurd h2 (by simpa using h1)
  · intro q hq
    exact notFound_iff q hq

/-- C1 counterexample: a truncated page still carrying the system-error
title and not-in-database message classifies as `Incomplete`, not
`NotFound`, yet the forward worker treats it as journal-deleted: the batch
`[(5, that page)]` takes the empty-batch branch (nothing persisted,
artifact deleted, `last_good_id` stays 4) although the claim, keyed on
classification, would demand frontier 5 with ID 5 persisted. -/
theorem c1_counterexample :
    checkErrorsE pageIncNF = .ok .incomplete ∧
    decide (Classification.incomplete = Classification.notFound) = false ∧
    journalDeletedE pageIncNF = .ok true ∧
    work_forwards_step 4 [(5, pageIncNF)] = .ok ⟨[], [5], 4, true⟩ ∧
    decide ((4 : Int) = 5) = false :=
  ⟨rfl, rfl, rfl, rfl, rfl⟩

/-- C1 witness: a batch with a not-found page below a live page: frontier 6,
both IDs persisted, nothing deleted. -/
theorem c1_witness :
    work_forwards_step 4 [(5, pageNotFound), (6, pageOk)] =
      .ok ⟨[5, 6], [], 6, false⟩ := by
  have h := (c1_forward_frontier_amended.1 4 [(5, pageNotFound), (6, pageOk)]
    [(5, true), (6, false)] (by rfl)).2 (by decide)
  rw [h.1]
  rfl

/-- C3 (amended): a first fetch whose classification is AccountPrivate
triggers exactly one further fetch with the backup credential set, whose
result replaces the first; but when the re-fetch still classifies as
AccountPrivate the save raises the registered-users-only error (nothing is
persisted and the worker sees the exception) instead of persisting a
private record. -/
theorem c3_private_retry_amended (fetch : Bool → Page) (jid : Int) :
    (checkErrorsE (fetch false) = .ok .accountPrivate →
      download_journal_with_backup_cookies fetch = (fetch true, 2)) ∧
    (account_private (fetch false) = false →
      download_journal_with_backup_cookies fetch = (fetch false, 1)) ∧
    (∀ p : Page, checkErrorsE p = .ok .accountPrivate →
      saveFields jid p = .error ()) := by
  refine ⟨?_, ?_, ?_⟩
  · intro h
    have hap := accountPrivate_flag _ h
    unfold download_journal_with_backup_cookies
    simp [hap]
  · intro h
    unfold download_journal_with_backup_cookies
    simp [h]
  · intro p h
    unfold saveFields
    simp only [bind, Except.bind, h]
    cases hl : loginUserE p with
    | error e => rfl
    | ok lg => rfl

/-- C3 counterexample: an account-private page fetched with and without
credentials — the re-fetch happens and still classifies private, and the
save then raises instead of completing with a private record. -/
theorem c3_counterexample :
    checkErrorsE pagePrivate = .ok .accountPrivate ∧
    download_journal_with_backup_cookies (fun _ => pagePrivate) =
      (pagePrivate, 2) ∧
    saveFields 1 pagePrivate = .error () :=
  ⟨rfl, rfl, rfl⟩

/-- C3 witness: the private first fetch is replaced by the authenticated
fetch's page, and a still-private page makes the save raise. -/
theorem c3_witness :
    download_journal_with_backup_cookies
      (fun b => if b then pageOk else pagePrivate) = (pageOk, 2) ∧
    saveFields 1 pagePrivate = .error () := by
  have h := c3_private_retry_amended
    (fun b => if b then pageOk else pagePrivate) 1
  exact ⟨h.1 (by rfl), h.2.2 pagePrivate (by rfl)⟩

/-- C7: the record store's update statement evaluated on concrete rows.
With a present row it assigns only `is_deleted` — receiving the SQLite AND
of the supplied flag with column comparisons, here 0 despite the supplied
flag being true — and leaves the archive timestamp, error, identity and
payload columns unchanged (contrast `add_entry`, which writes them); with
NULL columns on both sides the AND yields NULL and the statement raises;
with no matching row it silently changes nothing and reports no error. -/
theorem c7_update_entry_eval :
    update_entry 1 true "B" (some "new error") none (some "new json")
        [⟨1, .int 1, .text "A", .text "old error", .null, .text "old json"⟩] =
      .ok [⟨1, .int 0, .text "A", .text "old error", .null, .text "old json"⟩] ∧
    add_entry 1 true "B" (some "new error") none (some "new json")
        [⟨1, .int 1, .text "A", .text "old error", .null, .text "old json"⟩] =
      [⟨1, .int 1, .text "A", .text "new error", .null, .text "new json"⟩] ∧
    update_entry 1 true "A" (some "old error") none (some "old json")
        [⟨1, .int 1, .text "A", .text "old error", .null, .text "old json"⟩] =
      .error () ∧
    update_entry 2 true "B" (some "e") none none
        [⟨1, .int 1, .text "A", .text "old error", .null, .text "old json"⟩] =
      .ok [⟨1, .int 1, .text "A", .text "old error", .null, .text "old json"⟩] :=
  ⟨rfl, rfl, rfl, rfl⟩

/-- C9: the forward batch arithmetic at the boundary: with
`last_good_id = 10`, `batch_size = 5` and upper bound 12 the computed batch
is `[11]` — the bound itself is excluded — and with `last_good_id = 11` the
batch is already empty, so the worker stops without ever fetching ID 12;
without a bound the batch is the full `[11..15]`. -/
theorem c9_forward_batch_eval :
    next_forward_batch 10 5 (some 12) = [11] ∧
    (next_forward_batch 10 5 (some 12)).contains 12 = false ∧
    next_forward_batch 11 5 (some 12) = [] ∧
    next_forward_batch 10 5 none = [11, 12, 13, 14, 15] :=
  ⟨rfl, rfl, rfl, rfl⟩

/-- C8: status-glyph inference with no dedicated markup element: a first
character in the unconditional set is the answer outright; else a
normalized display name equal to the username gives the empty glyph; else a
first character in the second set whose remaining normalized text is a
truncation-tolerant match of the username gives that character; every other
case raises; and the glyph-to-meaning mapping is the fixed table. -/
theorem c8_status_glyph :
    (∀ dn un : String, dn ≠ "" → (pyFirst dn = '∞' ∨ pyFirst dn = '!') →
      statusGlyphInfer dn un = .ok (String.singleton (pyFirst dn))) ∧
    (∀ dn un : String, dn ≠ "" → ¬(pyFirst dn = '∞' ∨ pyFirst dn = '!') →
      un = display_name_to_username dn →
      statusGlyphInfer dn un = .ok "") ∧
    (∀ dn un : String, dn ≠ "" → ¬(pyFirst dn = '∞' ∨ pyFirst dn = '!') →
      un ≠ display_name_to_username dn →
      (pyFirst dn = '~' ∨ pyFirst dn = '-') →
      pyStartsWith un (pyDrop (display_name_to_username dn) 1) = true →
      statusGlyphInfer dn un = .ok (String.singleton (pyFirst dn))) ∧
    (∀ dn un : String, dn ≠ "" → ¬(pyFirst dn = '∞' ∨ pyFirst dn = '!') →
      un ≠ display_name_to_username dn →
      ¬((pyFirst dn = '~' ∨ pyFirst dn = '-') ∧
        pyStartsWith un (pyDrop (display_name_to_username dn) 1) = true) →
      statusGlyphInfer dn un = .error ()) ∧
    statusGlyphInfer "~FooBar" "foobar" = .ok "~" ∧
    glyphMeaning (some "~") = some (some "Member") ∧
    statusGlyphInfer "FooBar" "foobar" = .ok "" ∧
    glyphMeaning (some "") = some (some "") ∧
    glyphMeaning (some "∞") = some (some "Deceased") ∧
    glyphMeaning (some "!") = some (some "Suspended") ∧
    glyphMeaning (some "-") = some (some "Banned") ∧
    glyphMeaning (some "@") = some (some "Staff") ∧
    glyphMeaning none = some none := by
  refine ⟨?_, ?_, ?_, ?_, rfl, rfl, rfl, rfl, rfl, rfl, rfl, rfl, rfl⟩
  · intro dn un h1 h2
    simp [statusGlyphInfer, h1, h2]
  · intro dn un h1 h2 h3
    simp [statusGlyphInfer, h1, h2, h3]
  · intro dn un h1 h2 h3 h4 h5
    simp [statusGlyphInfer, h1, h2, h3, h4, h5]
  · intro dn un h1 h2 h3 h4
    simp [statusGlyphInfer, h1, h2, h3, h4]

/-- C8 witness: an unconditional glyph and an unrecognized case. -/
theorem c8_witness :
    statusGlyphInfer "∞Name" "name" = .ok "∞" ∧
    statusGlyphInfer "Xyz" "abc" = .error () := by
  have h := c8_status_glyph
  exact ⟨h.1 "∞Name" "name" (by decide) (by decide),
    h.2.2.2.1 "Xyz" "abc" (by decide) (by decide) (by decide) (by decide)⟩

/-- C10: a comment whose extraction finds a deletion message has author
`None`, posted-at `None` and edited `False`, while its comment id and
optional parent id are extracted exactly as for the same element without
the deleted container; and the author block is assembled only for
non-deleted comments. -/
theorem c10_deleted_comment :
    (∀ (c : CommentElem) (m : String), deletion_message c = .ok (some m) →
      comment_author c = .ok none ∧
      comment_posted_at c = .ok none ∧
      comment_edited c = .ok false ∧
      comment_id c = comment_id { c with deletedContainer := none } ∧
      parent_id c = parent_id { c with deletedContainer := none }) ∧
    (∀ (c : CommentElem) (a : CommentAuthor),
      comment_author c = .ok (some a) → deletion_message c = .ok none) := by
  constructor
  · intro c m h
    refine ⟨?_, ?_, ?_, rfl, rfl⟩
    · unfold comment_author
      simp [bind, Except.bind, h, pure, Except.pure]
    · unfold comment_posted_at
      simp [bind, Except.bind, h, pure, Except.pure]
    · unfold comment_edited
      simp [bind, Except.bind, h, pure, Except.pure]
  · intro c a h
    unfold comment_author at h
    simp only [bind, Except.bind] at h
    cases hd : deletion_message c with
    | error e => rw [hd] at h; cases h
    | ok dm =>
      rw [hd] at h
      cases dm with
      | none => rfl
      | some m =>
        simp only [Option.isSome_some, if_true, pure, Except.pure] at h
        cases h

/-- C10 witness: a concrete deleted comment — author, date and edited flag
are suppressed while the ids and the message itself are extracted. -/
theorem c10_witness :
    comment_author deletedComment = .ok none ∧
    comment_posted_at deletedComment = .ok none ∧
    comment_edited deletedComment = .ok false := by
  have h := c10_deleted_comment.1 deletedComment
    "Comment hidden by its owner" (by rfl)
  exact ⟨h.1, h.2.1, h.2.2.1⟩

end FAJournaliser
